import Mathlib

set_option linter.unusedVariables false
set_option maxRecDepth 100000

/-!
Verification of the test-execution and reporting orchestration component of the
repository (`utils/test_runners.py`): `TestRunner` / `_run_pytest` (process
execution), `ContinuousTestRunner.watch_and_run` (change-triggered runs),
and `create_test_report` (HTML report rendering).

The embedding is shallow: each Python function is translated into a Lean
function over explicit data.  The result dictionary returned by
`TestRunner._run_pytest` has two shapes (one per `try` branch); it is embedded
as a structure whose optional keys are `Option` fields.  The behaviour of the
child process (what `subprocess.run` did) is a parameter of type
`ExecOutcome`: either the process started and exited with a return code and
captured streams, or it could not be started and `subprocess.run` raised an
exception carrying a message.
-/

namespace TestRunners

/-- Outcome of the `subprocess.run` call inside `TestRunner._run_pytest`:
either the child process ran to completion (`started`, with its return code
and captured stdout/stderr), or the process could not be started and the call
raised an exception whose string form is `msg` (`startupError`). -/
inductive ExecOutcome where
  | started (returncode : Int) (stdout : String) (stderr : String)
  | startupError (msg : String)
deriving DecidableEq, Repr

/-- The dictionary returned by `TestRunner._run_pytest`.  Keys that appear in
only one of the two return branches are `Option` fields (`none` = key absent):
the success branch has `returncode`, `stdout`, `stderr` and no `error`; the
exception branch has `error` and none of the other three.  `success` and
`command` appear in both branches. -/
structure PyResult where
  success : Bool
  returncode : Option Int
  stdout : Option String
  stderr : Option String
  command : String
  error : Option String
deriving DecidableEq, Repr

/-- `cmd = [sys.executable, "-m", "pytest"] + args` in `_run_pytest`;
`exe` stands for the ambient `sys.executable`. -/
def build_cmd (exe : String) (args : List String) : List String :=
  [exe, "-m", "pytest"] ++ args

/-- Process environments, as partial maps from variable name to value
(`none` = variable absent). -/
def Env : Type := String → Option String

/-- Assignment `env[key] = val` on a (copy of a) Python dict. -/
def set_env (env : Env) (key val : String) : Env :=
  fun k => if k = key then some val else env k

/-- `env=env or os.environ.copy()` inside `_run_pytest`: the environment the
child process receives is the supplied one when present, else the ambient
process environment.  (The callers pass either `None` or a non-empty dict, so
Python truthiness on the dict coincides with presence.) -/
def effective_env (env : Option Env) (ambient : Env) : Env :=
  env.getD ambient

/-- `TestRunner._run_pytest`: builds the command, runs it, and returns the
result dictionary.  `env` is the optional `env=` keyword argument and
`ambient` stands for `os.environ`; the child process is started with
`effective_env env ambient`, and what it did is the `outcome` parameter.
On a started process: `success = (returncode == 0)`, with the captured
streams and the joined command string.  On a startup exception:
`success = False`, `error = str(e)`, the joined command string, and no
`returncode`/`stdout`/`stderr` keys.  The function is total: both branches
return a `PyResult`, no exception escapes to the caller. -/
def run_pytest (exe : String) (args : List String) (env : Option Env)
    (ambient : Env) (outcome : ExecOutcome) : PyResult :=
  let cmd := build_cmd exe args
  match outcome with
  | .started rc out err =>
      { success := rc == 0
        returncode := some rc
        stdout := some out
        stderr := some err
        command := String.intercalate " " cmd
        error := none }
  | .startupError msg =>
      { success := false
        returncode := none
        stdout := none
        stderr := none
        command := String.intercalate " " cmd
        error := some msg }

/-- Arguments of `TestRunner.run_smoke_tests`. -/
def smoke_args : List String := ["-m", "smoke", "-v"]

/-- `TestRunner.run_smoke_tests`. -/
def run_smoke_tests (exe : String) (ambient : Env) (outcome : ExecOutcome) :
    PyResult :=
  run_pytest exe smoke_args none ambient outcome

/-- `TestRunner.run_api_tests`. -/
def run_api_tests (exe : String) (ambient : Env) (outcome : ExecOutcome) :
    PyResult :=
  run_pytest exe ["-m", "api", "-v"] none ambient outcome

/-- `TestRunner.run_ui_tests`. -/
def run_ui_tests (exe : String) (ambient : Env) (outcome : ExecOutcome) :
    PyResult :=
  run_pytest exe ["-m", "ui", "-v"] none ambient outcome

/-- `TestRunner.run_integration_tests`. -/
def run_integration_tests (exe : String) (ambient : Env)
    (outcome : ExecOutcome) : PyResult :=
  run_pytest exe ["-m", "integration", "-v"] none ambient outcome

/-- `TestRunner.run_performance_tests`. -/
def run_performance_tests (exe : String) (ambient : Env)
    (outcome : ExecOutcome) : PyResult :=
  run_pytest exe ["-m", "slow", "-v", "--tb=short"] none ambient outcome

/-- Arguments of `TestRunner.run_parallel_tests` (`workers` defaults to 4 in
the source). -/
def parallel_args (workers : Int) : List String :=
  ["-n", toString workers, "-v"]

/-- `TestRunner.run_parallel_tests`. -/
def run_parallel_tests (exe : String) (workers : Int) (ambient : Env)
    (outcome : ExecOutcome) : PyResult :=
  run_pytest exe (parallel_args workers) none ambient outcome

/-- Arguments of `TestRunner.run_with_coverage` (`min_coverage` defaults to 80
in the source). -/
def coverage_args (min_coverage : Int) : List String :=
  ["--cov=src",
   "--cov-report=html",
   "--cov-report=term-missing",
   "--cov-fail-under=" ++ toString min_coverage,
   "-v"]

/-- `TestRunner.run_with_coverage`. -/
def run_with_coverage (exe : String) (min_coverage : Int) (ambient : Env)
    (outcome : ExecOutcome) : PyResult :=
  run_pytest exe (coverage_args min_coverage) none ambient outcome

/-- The environment built by `TestRunner.run_browser_specific_tests`:
`env = os.environ.copy(); env["PLAYWRIGHT_BROWSER"] = browser`.  `ambient`
stands for `os.environ`. -/
def browser_env (ambient : Env) (browser : String) : Env :=
  set_env ambient "PLAYWRIGHT_BROWSER" browser

/-- `TestRunner.run_browser_specific_tests`: runs `_run_pytest(["-v"], env=...)`
with the browser-override environment. -/
def run_browser_specific_tests (exe : String) (browser : String)
    (ambient : Env) (outcome : ExecOutcome) : PyResult :=
  run_pytest exe ["-v"] (some (browser_env ambient browser)) ambient outcome

end TestRunners

namespace TestRunners

/-- C1: for every run the executor actually starts, `success` is true exactly
when the child exits with code 0; in particular exit code 2 yields
`success = false` together with `returncode = 2`. -/
theorem run_result_success_iff_exit_zero
    (exe : String) (args : List String) (env : Option Env) (ambient : Env)
    (rc : Int) (out err : String) :
    ((run_pytest exe args env ambient (.started rc out err)).success
        = decide (rc = 0))
    ∧ ((run_pytest exe args env ambient (.started rc out err)).returncode
        = some rc)
    ∧ ((run_pytest exe args env ambient (.started 2 out err)).success = false
        ∧ (run_pytest exe args env ambient (.started 2 out err)).returncode
            = some 2) := by
  refine ⟨?_, rfl, ?_, rfl⟩
  · by_cases h : rc = 0 <;> simp [run_pytest, h]
  · simp [run_pytest]

/-- C2: when the command cannot be started, `_run_pytest` catches the
exception and returns a result dictionary (no exception propagates): it has
`success = False`, no `returncode` key, and `error = str(e)`; when the
exception message is non-empty (as for Python `OSError`s) the reported
failure reason is non-empty. -/
theorem startup_failure_returns_result
    (exe : String) (args : List String) (env : Option Env) (ambient : Env)
    (msg : String) (h : msg ≠ "") :
    ((run_pytest exe args env ambient (.startupError msg)).success = false)
    ∧ ((run_pytest exe args env ambient (.startupError msg)).returncode = none)
    ∧ ((run_pytest exe args env ambient (.startupError msg)).error = some msg)
    ∧ ((run_pytest exe args env ambient (.startupError msg)).error.getD ""
        ≠ "") := by
  refine ⟨rfl, rfl, rfl, ?_⟩
  simpa [run_pytest] using h

/-- Witness for C2 at a concrete startup error (nonexistent executable). -/
theorem startup_failure_returns_result_witness :
    ((run_pytest "python" ["-v"] none (fun _ => none)
        (.startupError "No such file or directory")).success = false)
    ∧ ((run_pytest "python" ["-v"] none (fun _ => none)
        (.startupError "No such file or directory")).returncode = none)
    ∧ ((run_pytest "python" ["-v"] none (fun _ => none)
        (.startupError "No such file or directory")).error
          = some "No such file or directory")
    ∧ ((run_pytest "python" ["-v"] none (fun _ => none)
        (.startupError "No such file or directory")).error.getD "" ≠ "") :=
  startup_failure_returns_result "python" ["-v"] none (fun _ => none)
    "No such file or directory" (by decide)

/-- C3: the command built by `_run_pytest` is the fixed pytest invocation
prefix followed by exactly the profile's argument list (no elements dropped,
inserted, or reordered), and each runner returns the `_run_pytest` result to
its caller unchanged (shown for the smoke profile, whose call is literal in
the source). -/
theorem command_suffix_is_profile_args
    (exe : String) (args : List String) (env : Option Env) (ambient : Env)
    (outcome : ExecOutcome) :
    ((build_cmd exe args).take 3 = [exe, "-m", "pytest"])
    ∧ ((build_cmd exe args).drop 3 = args)
    ∧ ((run_pytest exe args env ambient outcome).command
        = String.intercalate " " (build_cmd exe args))
    ∧ (run_smoke_tests exe ambient outcome
        = run_pytest exe smoke_args none ambient outcome) := by
  refine ⟨rfl, rfl, ?_, rfl⟩
  cases outcome <;> rfl

/-- C7: the profile catalog fixes each profile's argument template: the smoke
profile contributes the command suffix `["-m", "smoke", "-v"]`, and for every
threshold `n` the coverage profile's suffix contains `--cov-fail-under=<n>`
(in particular `--cov-fail-under=90` for threshold 90). -/
theorem profile_catalog_args (exe : String) (n : Int) :
    (smoke_args = ["-m", "smoke", "-v"])
    ∧ ((build_cmd exe smoke_args).drop 3 = ["-m", "smoke", "-v"])
    ∧ (("--cov-fail-under=" ++ toString n) ∈ (build_cmd exe
        (coverage_args n)).drop 3)
    ∧ ("--cov-fail-under=90" ∈ (build_cmd exe (coverage_args 90)).drop 3) := by
  refine ⟨rfl, rfl, ?_, ?_⟩
  · simp [build_cmd, coverage_args]
  · simp [build_cmd, coverage_args]
    rfl

/-- C8: `run_browser_specific_tests` runs the child with the ambient
environment plus the browser override: in the environment handed to the child
process, `PLAYWRIGHT_BROWSER` is set to the requested browser name, and every
other variable keeps its ambient value. -/
theorem browser_env_override (ambient : Env) (browser : String) (k : String)
    (h : k ≠ "PLAYWRIGHT_BROWSER") :
    ((effective_env (some (browser_env ambient browser)) ambient)
        "PLAYWRIGHT_BROWSER" = some browser)
    ∧ ((effective_env (some (browser_env ambient browser)) ambient) k
        = ambient k) := by
  constructor
  · rfl
  · simp [effective_env, browser_env, set_env, h]

/-- Witness for C8: with an ambient environment containing `PATH`, the
browser override sets `PLAYWRIGHT_BROWSER` to `firefox` and leaves `PATH`
unchanged. -/
theorem browser_env_override_witness :
    ((effective_env
        (some (browser_env (fun k => if k = "PATH" then some "/usr/bin"
          else none) "firefox"))
        (fun k => if k = "PATH" then some "/usr/bin" else none))
      "PLAYWRIGHT_BROWSER" = some "firefox")
    ∧ ((effective_env
        (some (browser_env (fun k => if k = "PATH" then some "/usr/bin"
          else none) "firefox"))
        (fun k => if k = "PATH" then some "/usr/bin" else none))
      "PATH" = (fun k => if k = "PATH" then some "/usr/bin" else none)
        "PATH") :=
  browser_env_override (fun k => if k = "PATH" then some "/usr/bin" else none)
    "firefox" "PATH" (by decide)

/-!
`ContinuousTestRunner.watch_and_run`.  Paths and patterns are embedded as
character lists (Python `str.endswith` is exactly list-suffix testing on
characters, and `p.replace("*", "")` removes every `*` character).
-/

/-- Python `s.endswith(suf)`: `suf` is a suffix of `s`.  A list ends with
`suf` when it equals `suf` or its tail ends with `suf`. -/
def ends_with_chars (suf : List Char) : List Char → Bool
  | [] => [] == suf
  | c :: t => (c :: t == suf) || ends_with_chars suf t

/-- Python `p.replace("*", "")`: every `*` character removed. -/
def remove_stars (p : List Char) : List Char :=
  p.filter (fun c => c != '*')

/-- The trigger condition of `TestEventHandler.on_modified`:
`not event.is_directory and any(event.src_path.endswith(p.replace("*", ""))
for p in patterns)`. -/
def should_trigger (patterns : List (List Char)) (is_directory : Bool)
    (src_path : List Char) : Bool :=
  !is_directory && patterns.any (fun p =>
    ends_with_chars (remove_stars p) src_path)

/-- `patterns = patterns or ["*.py"]`: the default pattern list. -/
def default_patterns : List (List Char) := [String.toList "*.py"]

/-- Helper for glob matching: `star_loop k s` holds when the rest of the
pattern (decided by `k`) matches some suffix of `s` — this is what a `*`
contributes. -/
def star_loop (k : List Char → Bool) : List Char → Bool
  | [] => k []
  | d :: t => k (d :: t) || star_loop k t

/-- Glob matching in the sense of Python `fnmatch` (what "the path matches
the glob pattern" means in the specification): `*` matches any character
sequence, every other character matches itself, and the pattern must match
the whole string. -/
def glob_match : List Char → List Char → Bool
  | [], s => s.isEmpty
  | c :: ps, s =>
    if c = '*' then
      star_loop (glob_match ps) s
    else
      match s with
      | [] => false
      | d :: t => (c == d) && glob_match ps t

/-- A star-free glob pattern matches exactly itself. -/
theorem glob_match_no_star :
    ∀ (p s : List Char), '*' ∉ p → (glob_match p s = true ↔ s = p) := by
  intro p
  induction p with
  | nil => intro s _; cases s <;> simp [glob_match, List.isEmpty]
  | cons c ps ih =>
      intro s hp
      have hc : ¬ c = '*' := fun h => hp (h ▸ List.mem_cons_self c ps)
      have hps : '*' ∉ ps := fun h => hp (List.mem_cons_of_mem c h)
      cases s with
      | nil => simp [glob_match, hc]
      | cons d t =>
          simp only [glob_match, if_neg hc, Bool.and_eq_true, beq_iff_eq,
            ih t hps, List.cons.injEq]
          constructor
          · rintro ⟨h1, h2⟩; exact ⟨h1.symm, h2⟩
          · rintro ⟨h1, h2⟩; exact ⟨h1.symm, h2⟩

/-- A glob pattern of the form `*suf` with star-free `suf` matches exactly
the strings ending in `suf`. -/
theorem glob_match_star (p : List Char) (hp : '*' ∉ p) :
    ∀ s, glob_match ('*' :: p) s = ends_with_chars p s := by
  have hns : ∀ s, glob_match p s = true ↔ s = p :=
    fun s => glob_match_no_star p s hp
  intro s
  induction s with
  | nil =>
      apply Bool.eq_iff_iff.mpr
      simp [glob_match, star_loop, ends_with_chars, hns]
  | cons c t ih =>
      apply Bool.eq_iff_iff.mpr
      simp only [glob_match, reduceIte, star_loop] at ih ⊢
      simp [ends_with_chars, hns, ih]

/-- C9 counterexample: with the configured pattern `test_*.py`, the path
`test_foo.py` matches the glob pattern yet the handler does not trigger,
because the code tests `src_path.endswith(p.replace("*", ""))`, i.e. suffix
`test_.py`, not glob matching. -/
theorem trigger_not_glob_counterexample :
    (glob_match (String.toList "test_*.py") (String.toList "test_foo.py")
      = true)
    ∧ (should_trigger [String.toList "test_*.py"] false
        (String.toList "test_foo.py") = false) := by
  decide

/-- C9 (amended): `on_modified` triggers a run iff the event is not a
directory and the changed path ends with some configured pattern's text with
every `*` removed; for the default `*.py` pattern list this coincides with
glob matching against `*.py`. -/
theorem trigger_condition (patterns : List (List Char)) (is_dir : Bool)
    (path : List Char) :
    (should_trigger patterns is_dir path = true ↔
      (is_dir = false
        ∧ ∃ p ∈ patterns, ends_with_chars (remove_stars p) path = true))
    ∧ (should_trigger default_patterns is_dir path
        = (!is_dir && glob_match (String.toList "*.py") path)) := by
  constructor
  · simp [should_trigger, List.any_eq_true, Bool.and_eq_true,
      Bool.not_eq_true']
  · have h1 : String.toList "*.py" = '*' :: ['.', 'p', 'y'] := rfl
    have h2 : remove_stars (String.toList "*.py") = ['.', 'p', 'y'] := rfl
    have h3 : ('*' : Char) ∉ ['.', 'p', 'y'] := by decide
    calc should_trigger default_patterns is_dir path
        = (!is_dir && ends_with_chars ['.', 'p', 'y'] path) := by
          simp only [should_trigger, default_patterns, List.any_cons,
            List.any_nil, Bool.or_false, h2]
      _ = (!is_dir && glob_match ('*' :: ['.', 'p', 'y']) path) := by
          rw [glob_match_star _ h3 path]
      _ = (!is_dir && glob_match (String.toList "*.py") path) := by rw [h1]

/-- Witness for C9's amended theorem at a concrete matching event. -/
theorem trigger_condition_witness :
    (false = false
      ∧ ∃ p ∈ [String.toList "*.py"],
          ends_with_chars (remove_stars p) (String.toList "src/app.py")
            = true) :=
  (trigger_condition [String.toList "*.py"] false
    (String.toList "src/app.py")).1.mp (by decide)

/-!
The watch loop of `ContinuousTestRunner.watch_and_run`, as a trace semantics.
The watchdog observer delivers filesystem events one at a time on its single
dispatch thread, and `TestEventHandler.on_modified` runs the smoke tests
synchronously inside the handler call, so each triggered run starts and
finishes before the handler returns and before the next event is dispatched.
A watch session over a sequence of events therefore produces a flat trace of
run-start / run-finish actions; being "in flight" (the specification's
`is_running`) is the property of a trace prefix of having seen a start
without its finish.
-/

/-- A filesystem change event as seen by `on_modified`. -/
structure FsEvent where
  is_directory : Bool
  src_path : List Char
deriving DecidableEq, Repr

/-- Observable actions of the watch loop: a triggered test run starts /
finishes. -/
inductive WatchAction where
  | run_start
  | run_finish
deriving DecidableEq, Repr

/-- `TestEventHandler.on_modified`: on a matching non-directory event it
invokes `run_smoke_tests` synchronously (the run starts and finishes within
the handler call); otherwise it does nothing. -/
def on_modified (patterns : List (List Char)) (e : FsEvent) :
    List WatchAction :=
  if should_trigger patterns e.is_directory e.src_path then
    [WatchAction.run_start, WatchAction.run_finish]
  else []

/-- The action trace of a watch session: events are dispatched in order, one
at a time, each handled to completion. -/
def watch_trace (patterns : List (List Char)) (events : List FsEvent) :
    List WatchAction :=
  events.flatMap (on_modified patterns)

/-- Number of runs started in a trace. -/
def runs_started (t : List WatchAction) : Nat :=
  t.countP (fun a => a == WatchAction.run_start)

/-- Number of runs finished in a trace. -/
def runs_finished (t : List WatchAction) : Nat :=
  t.countP (fun a => a == WatchAction.run_finish)

/-- The `is_running` guard of the specification's `WatchState`, as a property
of a trace prefix: a run has started and not yet finished. -/
def is_running (t : List WatchAction) : Bool :=
  runs_finished t < runs_started t

/-- C4: along every prefix of a watch session's trace, at most one run is in
flight (`runs_started ≤ runs_finished + 1`), and every started run has
finished by the end of the session (the guard resets after each completed
run). -/
theorem at_most_one_run_in_flight (patterns : List (List Char))
    (events : List FsEvent) (n : Nat) :
    (runs_started ((watch_trace patterns events).take n)
      ≤ runs_finished ((watch_trace patterns events).take n) + 1)
    ∧ (runs_started (watch_trace patterns events)
      = runs_finished (watch_trace patterns events)) := by
  induction events generalizing n with
  | nil => simp [watch_trace, runs_started, runs_finished]
  | cons e es ih =>
      by_cases h : should_trigger patterns e.is_directory e.src_path
      · have htr : watch_trace patterns (e :: es)
            = WatchAction.run_start :: WatchAction.run_finish ::
              watch_trace patterns es := by
          simp [watch_trace, on_modified, h]
        constructor
        · match n with
          | 0 => simp [runs_started, runs_finished]
          | 1 =>
              simp [htr, runs_started, runs_finished, List.countP_cons]
          | (m + 2) =>
              have := (ih m).1
              simp only [htr, List.take_succ_cons, runs_started,
                runs_finished, List.countP_cons] at *
              simp only [beq_iff_eq, reduceCtorEq, if_false, if_true,
                reduceIte] at *
              omega
        · have := (ih 0).2
          simp only [htr, runs_started, runs_finished,
            List.countP_cons] at *
          simp only [beq_iff_eq, reduceCtorEq, if_false, if_true,
            reduceIte] at *
          omega
      · have htr : watch_trace patterns (e :: es) = watch_trace patterns es :=
          by simp [watch_trace, on_modified, h]
        rw [htr]
        exact ih n

/-!
`create_test_report`.  The Python function instantiates a fixed template via
`str.format`; the embedding splits the template (with `{{`/`}}` already
collapsed to literal braces) at its placeholders and concatenates the pieces
with the formatted field values, which is exactly what `format` produces.
-/

/-- Template text before the `status_class` placeholder. -/
def tpl_a : String :=
  "\n    <!DOCTYPE html>\n    <html>\n    <head>\n        <title>Test Report</title>\n        <style>\n            body \x7b font-family: Arial, sans-serif; margin: 20px; \x7d\n            .success \x7b color: green; \x7d\n            .failure \x7b color: red; \x7d\n            .info \x7b color: blue; \x7d\n            pre \x7b background: #f5f5f5; padding: 10px; border-radius: 5px; \x7d\n        </style>\n    </head>\n    <body>\n        <h1>Test Execution Report</h1>\n        <h2>Summary</h2>\n        <p class=\""

/-- Template text between the `status_class` and `status` placeholders. -/
def tpl_b : String := "\">Status: "

/-- Template text between the `status` and `returncode` placeholders. -/
def tpl_c : String := "</p>\n        <p>Return Code: "

/-- Template text between the `returncode` and `command` placeholders. -/
def tpl_d : String := "</p>\n        <p>Command: <code>"

/-- Template text between the `command` and `stdout` placeholders. -/
def tpl_e : String :=
  "</code></p>\n        \n        <h2>Output</h2>\n        <pre>"

/-- Template text between the `stdout` and `stderr_section` placeholders. -/
def tpl_f : String := "</pre>\n        \n        "

/-- Template text after the `stderr_section` placeholder. -/
def tpl_g : String := "\n    </body>\n    </html>\n    "

/-- Text before the stderr value in the f-string building `stderr_section`. -/
def err_a : String :=
  "\n        <h2>Errors</h2>\n        <pre class=\"failure\">"

/-- Text after the stderr value in the f-string building `stderr_section`. -/
def err_b : String := "</pre>\n        "

/-- `status = "PASSED" if results.get("success") else "FAILED"`. -/
def status_text (r : PyResult) : String :=
  if r.success then "PASSED" else "FAILED"

/-- `status_class = "success" if results.get("success") else "failure"`. -/
def status_class_text (r : PyResult) : String :=
  if r.success then "success" else "failure"

/-- `results.get("returncode", "N/A")` as formatted by `{returncode}`:
the integer's decimal form when the key is present, `"N/A"` otherwise. -/
def returncode_text (r : PyResult) : String :=
  match r.returncode with
  | some n => toString n
  | none => "N/A"

/-- `results.get("command", "N/A")`; both result shapes carry the key. -/
def command_text (r : PyResult) : String := r.command

/-- `results.get("stdout", "No output")`: the captured text when the key is
present (even when empty), `"No output"` when absent. -/
def stdout_text (r : PyResult) : String := r.stdout.getD "No output"

/-- `stderr_section`: empty unless `results.get("stderr")` is truthy (key
present with non-empty text), in which case it is the Errors block with the
raw stderr text interpolated. -/
def stderr_section (r : PyResult) : String :=
  if r.stderr.getD "" = "" then "" else err_a ++ r.stderr.getD "" ++ err_b

/-- `create_test_report`: the `html_content` string built by
`html_template.format(...)` (writing it to the output file is the caller's
I/O and not part of the rendered document). -/
def create_test_report (r : PyResult) : String :=
  tpl_a ++ status_class_text r ++ tpl_b ++ status_text r ++ tpl_c
    ++ returncode_text r ++ tpl_d ++ command_text r ++ tpl_e
    ++ stdout_text r ++ tpl_f ++ stderr_section r ++ tpl_g

/-- `leads_with pre s`: `s` starts with `pre`. -/
def leads_with : List Char → List Char → Bool
  | [], _ => true
  | _ :: _, [] => false
  | a :: as, b :: bs => (a == b) && leads_with as bs

/-- `contains_sub needle hay`: `needle` occurs contiguously in `hay`. -/
def contains_sub (needle : List Char) : List Char → Bool
  | [] => needle.isEmpty
  | c :: t => leads_with needle (c :: t) || contains_sub needle t

/-- Characters of `hay` after the first occurrence of `marker` (all of it
consumed); `[]` when `marker` does not occur. -/
def after_marker (marker : List Char) : List Char → List Char
  | [] => []
  | c :: t =>
    if leads_with marker (c :: t) then (c :: t).drop marker.length
    else after_marker marker t

/-- Characters of `hay` before the first occurrence of `marker` (all of
`hay` when `marker` does not occur). -/
def before_marker (marker : List Char) : List Char → List Char
  | [] => []
  | c :: t =>
    if leads_with marker (c :: t) then []
    else c :: before_marker marker t

/-- Re-parsing the rendered report: the text content of the document's first
`<pre>` element (the Output section). -/
def first_pre_content (html : String) : List Char :=
  before_marker (String.toList "</pre>")
    (after_marker (String.toList "<pre>") (String.toList html))

/-- The result of a successful run with empty captured streams
(Scenario 5). -/
def passed_result : PyResult :=
  run_pytest "python" smoke_args none (fun _ => none) (.started 0 "" "")

/-- A run whose captured stdout contains HTML special characters. -/
def evil_result : PyResult :=
  run_pytest "python" smoke_args none (fun _ => none)
    (.started 1 "</pre><script>alert(1)</script>" "")

/-- C5 (the source defect the specification flags): `create_test_report`
embeds the captured output into the markup without escaping, so output
containing `<`, `>`, `&` alters the document structure.  At `evil_result`
(stdout `</pre><script>alert(1)</script>`), re-parsing the rendered HTML
recovers an empty Output text instead of the original captured text, and the
injected `<script>` element appears verbatim in the document. -/
theorem report_escaping_round_trip_fails :
    (evil_result.stdout = some "</pre><script>alert(1)</script>")
    ∧ (first_pre_content (create_test_report evil_result) = [])
    ∧ (first_pre_content (create_test_report evil_result)
        ≠ String.toList (evil_result.stdout.getD ""))
    ∧ (contains_sub (String.toList "<script>alert(1)</script>")
        (String.toList (create_test_report evil_result)) = true) := by
  decide

/-- C6: `create_test_report` is a deterministic function of the result
dictionary (identical inputs give byte-identical output), and on the result
of a successful run with exit code 0 and empty captured streams the rendered
document contains the literal text `PASSED`. -/
theorem render_deterministic_and_passed :
    (∀ r₁ r₂ : PyResult, r₁ = r₂ →
      create_test_report r₁ = create_test_report r₂)
    ∧ (passed_result.success = true ∧ passed_result.returncode = some 0
        ∧ passed_result.stdout = some "" ∧ passed_result.stderr = some "")
    ∧ (contains_sub (String.toList "PASSED")
        (String.toList (create_test_report passed_result)) = true) := by
  refine ⟨fun r₁ r₂ h => h ▸ rfl, ⟨rfl, rfl, rfl, rfl⟩, by decide⟩

/-- Witness for C6 at the Scenario 5 result. -/
theorem render_deterministic_and_passed_witness :
    (create_test_report passed_result = create_test_report passed_result)
    ∧ (contains_sub (String.toList "PASSED")
        (String.toList (create_test_report passed_result)) = true) :=
  ⟨render_deterministic_and_passed.1 passed_result passed_result rfl,
   render_deterministic_and_passed.2.2⟩

/-- C10: report generation is total over both result shapes: on a
startup-failure result (no `returncode`/`stdout`/`stderr` keys) it renders
`N/A` for the return code and `No output` for the Output section and still
produces a non-empty document; and for every result the Errors section is
present (non-empty `stderr_section`) exactly when the `stderr` key is present
with non-empty text. -/
theorem report_total_on_startup_failure
    (exe : String) (args : List String) (env : Option Env) (ambient : Env)
    (msg : String) :
    (returncode_text (run_pytest exe args env ambient (.startupError msg))
      = "N/A")
    ∧ (stdout_text (run_pytest exe args env ambient (.startupError msg))
      = "No output")
    ∧ (stderr_section (run_pytest exe args env ambient (.startupError msg))
      = "")
    ∧ (0 < (create_test_report
        (run_pytest exe args env ambient (.startupError msg))).length)
    ∧ (∀ r : PyResult, stderr_section r = "" ↔ r.stderr.getD "" = "") := by
  refine ⟨rfl, rfl, rfl, ?_, ?_⟩
  · have h : 0 < tpl_a.length := by decide
    simp only [create_test_report, String.length_append]
    omega
  · intro r
    by_cases h : r.stderr.getD "" = ""
    · simp [stderr_section, h]
    · simp only [stderr_section, if_neg h]
      constructor
      · intro hc
        have hl := congrArg String.length hc
        simp only [String.length_append, String.length_empty] at hl
        have ha : 0 < err_a.length := by decide
        omega
      · intro hc
        exact absurd hc h

/-- Witness for C10 at a concrete startup failure. -/
theorem report_total_on_startup_failure_witness :
    (returncode_text (run_pytest "python" [] none (fun _ => none)
      (.startupError "boom")) = "N/A")
    ∧ (stdout_text (run_pytest "python" [] none (fun _ => none)
      (.startupError "boom")) = "No output")
    ∧ (stderr_section (run_pytest "python" [] none (fun _ => none)
      (.startupError "boom")) = "")
    ∧ (0 < (create_test_report (run_pytest "python" [] none (fun _ => none)
      (.startupError "boom"))).length)
    ∧ (∀ r : PyResult, stderr_section r = "" ↔ r.stderr.getD "" = "") :=
  report_total_on_startup_failure "python" [] none (fun _ => none) "boom"

end TestRunners
